import Mathlib

/-!
The module pywit: the Python extension module `wit` over the native library libwit

A shallow embedding of `src/pywit.c`.  The module keeps two C globals, the
native context pointer `context` and the registered Python callback
`saved_py_cb`; every method of the module is a function from the state before
the call to the Python-level result and the state after it.

The native library is present only through its header
`src/libwit/include/wit.h`; what its functions do is modelled from the header
comments and the specification (see `Native`).  What the remote service answers
is an input of each call (the stubbed transport).

Pointers are `Option`: `none` is `NULL`.  The reference counts kept are those
of the objects the binding stores (the callbacks).  `Py_XDECREF(res)`, which
the binding applies to the response buffer of the native library, is modelled
by its one effect a caller can see: the process dies when the decrement of the
buffer's first word reaches zero (`Py_XDECREF_res`).  The temporary objects of
a single call (the argument tuple of the callback, its result, the `None`
handed back) and the interpreter lock taken around the callback have no
counterpart in the model.
-/

namespace Pywit

/-! ## Python objects, results and argument parsing -/

/-- A Python object as the binding sees it.  `str s` is a string that the
format `s` of `PyArg_ParseTuple` accepts, with the C string `s` as content;
`obj id callable` is any object other than `None`, a string or an integer,
identified by its address `id`; `callable` is what `PyCallable_Check` answers
for it. -/
inductive PyVal
  | none
  | str (s : String)
  | int (n : Int)
  | obj (id : Nat) (callable : Bool)
  deriving DecidableEq

/-- The exception left set when a method returns `NULL`: the module's own
`wit.error` (`WitError`) with its message, or the `TypeError` that
`PyArg_ParseTuple` raises on an argument tuple that does not fit the format. -/
inductive PyErr
  | WitError (msg : String)
  | TypeError
  deriving DecidableEq

/-- How a call ends: the method hands an object back to the interpreter, or
`NULL` with an exception set, or the process dies inside the call (`crash`). -/
inductive PyResult
  | ok (v : PyVal)
  | raise (e : PyErr)
  | crash
  deriving DecidableEq

/-- `Py_BuildValue("s", res)`: a `NULL` C string becomes `None`, any other C
string a Python string with the same content. -/
def Py_BuildValue_s : Option String → PyVal
  | Option.none => PyVal.none
  | some r => PyVal.str r

/-- `Py_BuildValue("(s)", res)`: the one-element argument tuple holding the
conversion of `res`. -/
def Py_BuildValue_tuple_s (res : Option String) : List PyVal :=
  [Py_BuildValue_s res]

/-- `PyArg_ParseTuple(args, "|s", &device_opt)`: an empty tuple leaves
`device_opt` at `NULL`, a one-string tuple sets it. -/
def PyArg_ParseTuple_opt_s : List PyVal → Option (Option String)
  | [] => some Option.none
  | [PyVal.str s] => some (some s)
  | _ => Option.none

/-- `PyArg_ParseTuple(args, "s", &access_token)`. -/
def PyArg_ParseTuple_s : List PyVal → Option String
  | [PyVal.str s] => some s
  | _ => Option.none

/-- `PyArg_ParseTuple(args, "ss", &text, &access_token)`. -/
def PyArg_ParseTuple_ss : List PyVal → Option (String × String)
  | [PyVal.str a, PyVal.str b] => some (a, b)
  | _ => Option.none

/-- `PyArg_ParseTuple(args, "ssO", &text, &access_token, &py_cb)`. -/
def PyArg_ParseTuple_ssO : List PyVal → Option (String × String × PyVal)
  | [PyVal.str a, PyVal.str b, o] => some (a, b, o)
  | _ => Option.none

/-- `PyArg_ParseTuple(args, "sO", &access_token, &py_cb)`. -/
def PyArg_ParseTuple_sO : List PyVal → Option (String × PyVal)
  | [PyVal.str a, o] => some (a, o)
  | _ => Option.none

/-- `PyArg_ParseTuple(args, "O", &py_cb)`. -/
def PyArg_ParseTuple_O : List PyVal → Option PyVal
  | [o] => some o
  | _ => Option.none

/-- `PyCallable_Check(o)`. -/
def PyCallable_Check : PyVal → Bool
  | PyVal.obj _ callable => callable
  | _ => false

/-- `Py_XINCREF(o)` on the table of reference counts: nothing for `NULL`. -/
def Py_XINCREF (refcnt : PyVal → Int) : Option PyVal → PyVal → Int
  | Option.none => refcnt
  | some o => Function.update refcnt o (refcnt o + 1)

/-- `Py_XDECREF(o)` on the table of reference counts: nothing for `NULL`. -/
def Py_XDECREF (refcnt : PyVal → Int) : Option PyVal → PyVal → Int
  | Option.none => refcnt
  | some o => Function.update refcnt o (refcnt o - 1)

/-- Modelled from the spec: the first machine word of the buffer in which the
missing libwit hands out the response `r` (an owned string, spec section 3),
which is where `Py_DECREF` looks for `ob_refcnt`.  The word is 8 bytes, least
significant first; the buffer holds the bytes of the string and zero bytes
after them (the terminator and the rest of the allocation). -/
def ob_refcnt (r : String) : Nat :=
  ((r.toUTF8.data.toList.map UInt8.toNat).take 8).foldr (fun b acc => b + 256 * acc) 0

/-- `Py_XDECREF(res)` applied to the `char *` response of the native library
(pywit.c:39, 66, 82, 94): nothing for `NULL`; otherwise the first word of the
buffer is decremented as if it were a reference count and, when it reaches
zero, the buffer is deallocated as if it were an object, which kills the
process.  The value tells whether the process dies. -/
def Py_XDECREF_res : Option String → Bool
  | Option.none => false
  | some r => decide ((ob_refcnt r + 2 ^ 64 - 1) % 2 ^ 64 = 0)

/-! ## The native library -/

/-- A call received by the native library, with the context pointer and the
strings it was given.  The callback of the three asynchronous functions is
always `my_wit_resp_callback` and is not recorded. -/
inductive NativeCall
  | wit_init (device_opt : Option String) (verbosity : Nat)
  | wit_close (context : Nat)
  | wit_text_query (context : Nat) (text access_token : String)
  | wit_text_query_async (context : Nat) (text access_token : String)
  | wit_voice_query_auto (context : Nat) (access_token : String)
  | wit_voice_query_auto_async (context : Nat) (access_token : String)
  | wit_voice_query_start (context : Nat) (access_token : String)
  | wit_voice_query_stop (context : Nat)
  | wit_voice_query_stop_async (context : Nat)
  deriving DecidableEq

/-- Modelled from the spec: the state of the native library libwit, whose
implementation is missing (only `wit.h` declares it).  `next` is the address
the next successful `wit_init` hands out (contexts are never reissued),
`live` the contexts created by `wit_init` and not yet passed to `wit_close`,
`recording` the contexts with an ongoing recording session, `log` every call
received, oldest first. -/
structure Native where
  next : Nat
  live : List Nat
  recording : List Nat
  log : List NativeCall
  deriving DecidableEq

/-- Modelled from the spec: `wit_init` of the missing libwit.  It creates a
context, or yields `NULL` when the device cannot be opened (`opens = false`). -/
def wit_init (n : Native) (device_opt : Option String) (verbosity : Nat) (opens : Bool) :
    Option Nat × Native :=
  if opens then
    (some n.next,
      { n with next := n.next + 1, live := n.next :: n.live,
               log := n.log ++ [NativeCall.wit_init device_opt verbosity] })
  else
    (Option.none, { n with log := n.log ++ [NativeCall.wit_init device_opt verbosity] })

/-- Modelled from the spec: `wit_close` of the missing libwit.  It releases
the context and cancels its recording session. -/
def wit_close (n : Native) (context : Nat) : Native :=
  { n with live := n.live.erase context, recording := n.recording.erase context,
           log := n.log ++ [NativeCall.wit_close context] }

/-- Modelled from the spec: `wit_text_query` of the missing libwit; blocking,
it returns what the (stubbed) transport answers, `res`. -/
def wit_text_query (n : Native) (context : Nat) (text access_token : String)
    (res : Option String) : Option String × Native :=
  (res, { n with log := n.log ++ [NativeCall.wit_text_query context text access_token] })

/-- Modelled from the spec: `wit_text_query_async` of the missing libwit; it
returns at once, the response comes later through the callback. -/
def wit_text_query_async (n : Native) (context : Nat) (text access_token : String) : Native :=
  { n with log := n.log ++ [NativeCall.wit_text_query_async context text access_token] }

/-- Modelled from the spec: `wit_voice_query_auto` of the missing libwit;
blocking, the recording session starts and ends inside the call. -/
def wit_voice_query_auto (n : Native) (context : Nat) (access_token : String)
    (res : Option String) : Option String × Native :=
  (res, { n with log := n.log ++ [NativeCall.wit_voice_query_auto context access_token] })

/-- Modelled from the spec: `wit_voice_query_auto_async` of the missing
libwit; it returns at once with a recording session going on, which ends at the
end of speech or at a stop call. -/
def wit_voice_query_auto_async (n : Native) (context : Nat) (access_token : String) : Native :=
  { n with recording := if context ∈ n.recording then n.recording else context :: n.recording,
           log := n.log ++ [NativeCall.wit_voice_query_auto_async context access_token] }

/-- Modelled from the spec: `wit_voice_query_start` of the missing libwit; it
begins a recording session (at most one per context) and returns at once. -/
def wit_voice_query_start (n : Native) (context : Nat) (access_token : String) : Native :=
  { n with recording := if context ∈ n.recording then n.recording else context :: n.recording,
           log := n.log ++ [NativeCall.wit_voice_query_start context access_token] }

/-- Modelled from the spec: `wit_voice_query_stop` of the missing libwit.
With an ongoing session it ends the session and returns the transport's answer
`res`; with none it has no effect and returns a null result. -/
def wit_voice_query_stop (n : Native) (context : Nat) (res : Option String) :
    Option String × Native :=
  if context ∈ n.recording then
    (res, { n with recording := n.recording.erase context,
                   log := n.log ++ [NativeCall.wit_voice_query_stop context] })
  else
    (Option.none, { n with log := n.log ++ [NativeCall.wit_voice_query_stop context] })

/-- Modelled from the spec: `wit_voice_query_stop_async` of the missing
libwit; it ends the ongoing session, if any, and returns at once. -/
def wit_voice_query_stop_async (n : Native) (context : Nat) : Native :=
  { n with recording := n.recording.erase context,
           log := n.log ++ [NativeCall.wit_voice_query_stop_async context] }

/-- Modelled from the spec: the end-of-speech detector of the missing libwit
ends the recording session of `context` by itself. -/
def end_of_speech (n : Native) (context : Nat) : Native :=
  { n with recording := n.recording.erase context }

/-! ## The binding: `src/pywit.c` -/

/-- The state of the extension module: the globals `context` and
`saved_py_cb` of `pywit.c`, the reference count of every object relative to
its count when the module was loaded (what `Py_XINCREF` and `Py_XDECREF` of
the binding have added and taken), the list of `PyObject_CallObject` calls made
by `my_wit_resp_callback` (callee and argument tuple, oldest first), and the
native library. -/
structure State where
  context : Option Nat
  saved_py_cb : Option PyVal
  refcnt : PyVal → Int
  calls : List (Option PyVal × List PyVal)
  native : Native

/-- The module as loaded: both globals are `NULL`, nothing has been called. -/
def State.start : State :=
  { context := Option.none, saved_py_cb := Option.none, refcnt := fun _ => 0, calls := [],
    native := { next := 1, live := [], recording := [], log := [] } }

/-- The message of the error raised on a `NULL` context. -/
def uninitialized : String := "Wit context uninitialized (did you call wit.init()?)"

/-- The message of the error raised on a callback that is not callable. -/
def not_callable : String := "Parameter must be callable."

/-- `pywit_init` (pywit.c:8-16).  `opens` tells whether the native library
can open the device. -/
def pywit_init (s : State) (args : List PyVal) (opens : Bool) : PyResult × State :=
  match PyArg_ParseTuple_opt_s args with
  | Option.none => (PyResult.raise PyErr.TypeError, s)
  | some device_opt =>
    (PyResult.ok PyVal.none,
      { s with context := (wit_init s.native device_opt 4 opens).1,
               native := (wit_init s.native device_opt 4 opens).2 })

/-- `pywit_close` (pywit.c:18-24). -/
def pywit_close (s : State) : PyResult × State :=
  match s.context with
  | some c => (PyResult.ok PyVal.none, { s with native := wit_close s.native c })
  | Option.none => (PyResult.ok PyVal.none, s)

/-- `pywit_text_query` (pywit.c:26-41).  `res` is the answer of the stubbed
transport. -/
def pywit_text_query (s : State) (args : List PyVal) (res : Option String) : PyResult × State :=
  match s.context with
  | Option.none => (PyResult.raise (PyErr.WitError uninitialized), s)
  | some c =>
    match PyArg_ParseTuple_ss args with
    | Option.none => (PyResult.raise PyErr.TypeError, s)
    | some (text, access_token) =>
      if Py_XDECREF_res (wit_text_query s.native c text access_token res).1 then
        (PyResult.crash, { s with native := (wit_text_query s.native c text access_token res).2 })
      else
        (PyResult.ok (Py_BuildValue_s (wit_text_query s.native c text access_token res).1),
          { s with native := (wit_text_query s.native c text access_token res).2 })

/-- `pywit_voice_query_start` (pywit.c:43-55). -/
def pywit_voice_query_start (s : State) (args : List PyVal) : PyResult × State :=
  match s.context with
  | Option.none => (PyResult.raise (PyErr.WitError uninitialized), s)
  | some c =>
    match PyArg_ParseTuple_s args with
    | Option.none => (PyResult.raise PyErr.TypeError, s)
    | some access_token =>
      (PyResult.ok PyVal.none, { s with native := wit_voice_query_start s.native c access_token })

/-- `pywit_voice_query_stop` (pywit.c:57-68); the method takes no argument. -/
def pywit_voice_query_stop (s : State) (res : Option String) : PyResult × State :=
  match s.context with
  | Option.none => (PyResult.raise (PyErr.WitError uninitialized), s)
  | some c =>
    if Py_XDECREF_res (wit_voice_query_stop s.native c res).1 then
      (PyResult.crash, { s with native := (wit_voice_query_stop s.native c res).2 })
    else
      (PyResult.ok (Py_BuildValue_s (wit_voice_query_stop s.native c res).1),
        { s with native := (wit_voice_query_stop s.native c res).2 })

/-- `pywit_voice_query_auto` (pywit.c:70-84). -/
def pywit_voice_query_auto (s : State) (args : List PyVal) (res : Option String) :
    PyResult × State :=
  match s.context with
  | Option.none => (PyResult.raise (PyErr.WitError uninitialized), s)
  | some c =>
    match PyArg_ParseTuple_s args with
    | Option.none => (PyResult.raise PyErr.TypeError, s)
    | some access_token =>
      if Py_XDECREF_res (wit_voice_query_auto s.native c access_token res).1 then
        (PyResult.crash, { s with native := (wit_voice_query_auto s.native c access_token res).2 })
      else
        (PyResult.ok (Py_BuildValue_s (wit_voice_query_auto s.native c access_token res).1),
          { s with native := (wit_voice_query_auto s.native c access_token res).2 })

/-- `my_wit_resp_callback` (pywit.c:90-99): the function the native library
calls with the response of an asynchronous query.  It builds the one-element
tuple from `res`, applies `Py_XDECREF` to `res` and then calls the object in
`saved_py_cb` with the tuple.  The function returns nothing: the first
component is `crash` when the process dies in it and none otherwise. -/
def my_wit_resp_callback (s : State) (res : Option String) : Option PyResult × State :=
  if Py_XDECREF_res res then (some PyResult.crash, s)
  else (Option.none, { s with calls := s.calls ++ [(s.saved_py_cb, Py_BuildValue_tuple_s res)] })

/-- Lines 116-118 of pywit.c, the same in the three asynchronous methods:
`Py_XINCREF(py_cb); Py_XDECREF(saved_py_cb); saved_py_cb = py_cb;`. -/
def register (s : State) (py_cb : PyVal) : State :=
  { s with refcnt := Py_XDECREF (Py_XINCREF s.refcnt (some py_cb)) s.saved_py_cb,
           saved_py_cb := some py_cb }

/-- `pywit_text_query_async` (pywit.c:101-122). -/
def pywit_text_query_async (s : State) (args : List PyVal) : PyResult × State :=
  match s.context with
  | Option.none => (PyResult.raise (PyErr.WitError uninitialized), s)
  | some c =>
    match PyArg_ParseTuple_ssO args with
    | Option.none => (PyResult.raise PyErr.TypeError, s)
    | some (text, access_token, py_cb) =>
      if PyCallable_Check py_cb then
        (PyResult.ok PyVal.none,
          { register s py_cb with
            native := wit_text_query_async s.native c text access_token })
      else (PyResult.raise (PyErr.WitError not_callable), s)

/-- `pywit_voice_query_auto_async` (pywit.c:124-144). -/
def pywit_voice_query_auto_async (s : State) (args : List PyVal) : PyResult × State :=
  match s.context with
  | Option.none => (PyResult.raise (PyErr.WitError uninitialized), s)
  | some c =>
    match PyArg_ParseTuple_sO args with
    | Option.none => (PyResult.raise PyErr.TypeError, s)
    | some (access_token, py_cb) =>
      if PyCallable_Check py_cb then
        (PyResult.ok PyVal.none,
          { register s py_cb with
            native := wit_voice_query_auto_async s.native c access_token })
      else (PyResult.raise (PyErr.WitError not_callable), s)

/-- `pywit_voice_query_stop_async` (pywit.c:146-165). -/
def pywit_voice_query_stop_async (s : State) (args : List PyVal) : PyResult × State :=
  match s.context with
  | Option.none => (PyResult.raise (PyErr.WitError uninitialized), s)
  | some c =>
    match PyArg_ParseTuple_O args with
    | Option.none => (PyResult.raise PyErr.TypeError, s)
    | some py_cb =>
      if PyCallable_Check py_cb then
        (PyResult.ok PyVal.none,
          { register s py_cb with native := wit_voice_query_stop_async s.native c })
      else (PyResult.raise (PyErr.WitError not_callable), s)

/-- The interpreter's call of a method that `WitMethods` (pywit.c:167-178)
registers as `METH_NOARGS`, which `close` and `voice_query_stop` are: with an
empty argument tuple the C function is entered, with any argument the
interpreter raises `TypeError` and the C function is not entered. -/
def METH_NOARGS (meth : State → PyResult × State) (s : State) (args : List PyVal) :
    PyResult × State :=
  match args with
  | [] => meth s
  | _ :: _ => (PyResult.raise PyErr.TypeError, s)

/-! ## Sequences of operations -/

/-- One thing that happens to the module: one of the nine C functions of
`WitMethods` (pywit.c:167-178) being entered, with its argument tuple (none for
`close` and `voice_query_stop`, which are entered only on a call without
arguments) and, for the blocking queries, the answer of the stubbed transport;
the native library calling `my_wit_resp_callback` with a response; or the
native end-of-speech detector ending the session of a context. -/
inductive Event
  | init (args : List PyVal) (opens : Bool)
  | close
  | text_query (args : List PyVal) (res : Option String)
  | voice_query_start (args : List PyVal)
  | voice_query_stop (res : Option String)
  | voice_query_auto (args : List PyVal) (res : Option String)
  | text_query_async (args : List PyVal)
  | voice_query_auto_async (args : List PyVal)
  | voice_query_stop_async (args : List PyVal)
  | response (res : Option String)
  | end_of_speech (context : Nat)
  deriving DecidableEq

/-- The effect of one event: how it ends for the Python caller (none for the
two events that are not method calls, unless the process dies in them) and the
state after it. -/
def step (s : State) : Event → Option PyResult × State
  | Event.init args opens => (some (pywit_init s args opens).1, (pywit_init s args opens).2)
  | Event.close => (some (pywit_close s).1, (pywit_close s).2)
  | Event.text_query args res =>
    (some (pywit_text_query s args res).1, (pywit_text_query s args res).2)
  | Event.voice_query_start args =>
    (some (pywit_voice_query_start s args).1, (pywit_voice_query_start s args).2)
  | Event.voice_query_stop res =>
    (some (pywit_voice_query_stop s res).1, (pywit_voice_query_stop s res).2)
  | Event.voice_query_auto args res =>
    (some (pywit_voice_query_auto s args res).1, (pywit_voice_query_auto s args res).2)
  | Event.text_query_async args =>
    (some (pywit_text_query_async s args).1, (pywit_text_query_async s args).2)
  | Event.voice_query_auto_async args =>
    (some (pywit_voice_query_auto_async s args).1, (pywit_voice_query_auto_async s args).2)
  | Event.voice_query_stop_async args =>
    (some (pywit_voice_query_stop_async s args).1, (pywit_voice_query_stop_async s args).2)
  | Event.response res => my_wit_resp_callback s res
  | Event.end_of_speech c => (Option.none, { s with native := end_of_speech s.native c })

/-- The state after a sequence of events; nothing happens after an event in
which the process dies. -/
def run (s : State) : List Event → State
  | [] => s
  | e :: es => if (step s e).1 = some PyResult.crash then (step s e).2 else run (step s e).2 es

/-- Whether every event of the sequence, run from `s`, ends without the process
dying. -/
def crashFree (s : State) : List Event → Bool
  | [] => true
  | e :: es => decide ((step s e).1 ≠ some PyResult.crash) && crashFree (step s e).2 es

/-- The context pointer a native call receives; `wit_init` receives none. -/
def NativeCall.context : NativeCall → Option Nat
  | NativeCall.wit_init _ _ => Option.none
  | NativeCall.wit_close c => some c
  | NativeCall.wit_text_query c _ _ => some c
  | NativeCall.wit_text_query_async c _ _ => some c
  | NativeCall.wit_voice_query_auto c _ => some c
  | NativeCall.wit_voice_query_auto_async c _ => some c
  | NativeCall.wit_voice_query_start c _ => some c
  | NativeCall.wit_voice_query_stop c => some c
  | NativeCall.wit_voice_query_stop_async c => some c

/-- Whether, in a log of native calls (oldest first), some call receives a
context that an earlier `wit_close` of the log has released. -/
def useAfterClose : List NativeCall → Bool
  | [] => false
  | NativeCall.wit_close c :: rest =>
    rest.any (fun k => decide (k.context = some c)) || useAfterClose rest
  | _ :: rest => useAfterClose rest

/-- The callable that an asynchronous method call registers when the context is
not `NULL`: the last argument of a tuple that `PyArg_ParseTuple` accepts, when
`PyCallable_Check` accepts it.  None for every other event. -/
def Event.callback : Event → Option PyVal
  | Event.text_query_async args =>
    match PyArg_ParseTuple_ssO args with
    | some (_, _, py_cb) => if PyCallable_Check py_cb then some py_cb else Option.none
    | Option.none => Option.none
  | Event.voice_query_auto_async args =>
    match PyArg_ParseTuple_sO args with
    | some (_, py_cb) => if PyCallable_Check py_cb then some py_cb else Option.none
    | Option.none => Option.none
  | Event.voice_query_stop_async args =>
    match PyArg_ParseTuple_O args with
    | some py_cb => if PyCallable_Check py_cb then some py_cb else Option.none
    | Option.none => Option.none
  | _ => Option.none

/-- The callback that event `e` registers when it happens in state `s`: that
of an asynchronous call which is accepted, the context not being `NULL`. -/
def Event.registers (s : State) (e : Event) : Option PyVal :=
  if s.context = Option.none then Option.none else e.callback

/-- Whether, along a sequence of events from state `s`, every asynchronous call
that is accepted registers the callback `cb`. -/
def onlyRegisters (cb : PyVal) (s : State) : List Event → Bool
  | [] => true
  | m :: ms =>
    (decide (m.registers s = Option.none) || decide (m.registers s = some cb))
      && onlyRegisters cb (step s m).2 ms

/-- The responses that the native library delivers in a sequence of events,
oldest first. -/
def responses : List Event → List (Option String)
  | [] => []
  | Event.response res :: es => res :: responses es
  | _ :: es => responses es

/-- The seven query methods of the module (all but `init` and `close`). -/
def Event.isQuery : Event → Bool
  | Event.text_query _ _ => true
  | Event.voice_query_start _ => true
  | Event.voice_query_stop _ => true
  | Event.voice_query_auto _ _ => true
  | Event.text_query_async _ => true
  | Event.voice_query_auto_async _ => true
  | Event.voice_query_stop_async _ => true
  | _ => false

/-- A call of the method `init`. -/
def Event.isInit : Event → Bool
  | Event.init _ _ => true
  | _ => false

/-- Whether, along a sequence of events from state `s`, every call of `init`
comes while no native context is live. -/
def initOnlyWhenNoneLive (s : State) : List Event → Bool
  | [] => true
  | e :: es => (!e.isInit || s.native.live.isEmpty) && initOnlyWhenNoneLive (step s e).2 es

/-- At most one native context is live, and a live one is the one the global
`context` points to. -/
def LiveInv (s : State) : Prop :=
  s.native.live.length ≤ 1 ∧ ∀ x ∈ s.native.live, s.context = some x

/-! ## Lemmas on single steps -/

/-- With a `NULL` context each of the seven query methods raises the module
error and changes nothing. -/
theorem step_query_uninitialized (s : State) (e : Event) (hs : s.context = Option.none)
    (he : e.isQuery = true) :
    step s e = (some (PyResult.raise (PyErr.WitError uninitialized)), s) := by
  cases e <;>
    simp_all [Event.isQuery, step, pywit_text_query, pywit_voice_query_start,
      pywit_voice_query_stop, pywit_voice_query_auto, pywit_text_query_async,
      pywit_voice_query_auto_async, pywit_voice_query_stop_async]

/-- An asynchronous call that would register `cb` is accepted when the context
is not `NULL`: it returns `None`, registers `cb` and leaves the list of callback
invocations alone. -/
theorem step_callback (s : State) (e : Event) (cb : PyVal) (hs : s.context ≠ Option.none)
    (he : e.callback = some cb) :
    (step s e).1 = some (PyResult.ok PyVal.none) ∧
      (step s e).2.saved_py_cb = some cb ∧
      (step s e).2.calls = s.calls ∧
      (step s e).2.refcnt = Py_XDECREF (Py_XINCREF s.refcnt (some cb)) s.saved_py_cb := by
  obtain ⟨c, hc⟩ := Option.ne_none_iff_exists'.mp hs
  cases e <;> simp [Event.callback] at he
  · rename_i args
    cases hp : PyArg_ParseTuple_ssO args with
    | none => simp [hp] at he
    | some p =>
      obtain ⟨a, b, o⟩ := p
      simp [hp] at he
      simp [step, pywit_text_query_async, hc, hp, he.1, register, ← he.2]
  · rename_i args
    cases hp : PyArg_ParseTuple_sO args with
    | none => simp [hp] at he
    | some p =>
      obtain ⟨a, o⟩ := p
      simp [hp] at he
      simp [step, pywit_voice_query_auto_async, hc, hp, he.1, register, ← he.2]
  · rename_i args
    cases hp : PyArg_ParseTuple_O args with
    | none => simp [hp] at he
    | some o =>
      simp [hp] at he
      simp [step, pywit_voice_query_stop_async, hc, hp, he.1, register, ← he.2]

/-- An event that registers no callback leaves the callback slot and the
reference counts alone. -/
theorem step_no_callback (s : State) (e : Event) (he : e.callback = Option.none) :
    (step s e).2.saved_py_cb = s.saved_py_cb ∧ (step s e).2.refcnt = s.refcnt := by
  cases e with
  | init args opens => simp only [step, pywit_init]; split <;> simp
  | close => simp only [step, pywit_close]; split <;> simp
  | text_query args res =>
    simp only [step, pywit_text_query]
    (repeat' split) <;> first | rfl | simp
  | voice_query_start args =>
    simp only [step, pywit_voice_query_start]
    (repeat' split) <;> first | rfl | simp
  | voice_query_stop res =>
    simp only [step, pywit_voice_query_stop]
    (repeat' split) <;> first | rfl | simp
  | voice_query_auto args res =>
    simp only [step, pywit_voice_query_auto]
    (repeat' split) <;> first | rfl | simp
  | text_query_async args =>
    simp only [step, pywit_text_query_async]; split
    · simp
    · split
      · simp
      · rename_i hp
        simp [Event.callback, hp] at he
        simp [he]
  | voice_query_auto_async args =>
    simp only [step, pywit_voice_query_auto_async]; split
    · simp
    · split
      · simp
      · rename_i hp
        simp [Event.callback, hp] at he
        simp [he]
  | voice_query_stop_async args =>
    simp only [step, pywit_voice_query_stop_async]; split
    · simp
    · split
      · simp
      · rename_i hp
        simp [Event.callback, hp] at he
        simp [he]
  | response res => simp only [step, my_wit_resp_callback]; split <;> simp
  | end_of_speech c => simp [step]

/-- Only a response delivered by the native library adds to the list of
callback invocations. -/
theorem step_calls (s : State) (e : Event) (he : ∀ res, e ≠ Event.response res) :
    (step s e).2.calls = s.calls := by
  cases e with
  | init args opens => simp only [step, pywit_init]; split <;> simp
  | close => simp only [step, pywit_close]; split <;> simp
  | text_query args res => simp only [step, pywit_text_query]; (repeat' split) <;> rfl
  | voice_query_start args => simp only [step, pywit_voice_query_start]; (repeat' split) <;> rfl
  | voice_query_stop res => simp only [step, pywit_voice_query_stop]; (repeat' split) <;> rfl
  | voice_query_auto args res => simp only [step, pywit_voice_query_auto]; (repeat' split) <;> rfl
  | text_query_async args =>
    simp only [step, pywit_text_query_async]; (repeat' split) <;> rfl
  | voice_query_auto_async args =>
    simp only [step, pywit_voice_query_auto_async]; (repeat' split) <;> rfl
  | voice_query_stop_async args =>
    simp only [step, pywit_voice_query_stop_async]; (repeat' split) <;> rfl
  | response res => exact absurd rfl (he res)
  | end_of_speech c => simp [step]

/-- A response that the process survives makes one invocation, of the object in
the slot, with the conversion of the response, and changes nothing else. -/
theorem step_response (s : State) (res : Option String)
    (h : (step s (Event.response res)).1 ≠ some PyResult.crash) :
    (step s (Event.response res)).2.calls
        = s.calls ++ [(s.saved_py_cb, [Py_BuildValue_s res])] ∧
      (step s (Event.response res)).2.saved_py_cb = s.saved_py_cb := by
  simp only [step, my_wit_resp_callback] at h ⊢
  split
  · rename_i hx
    simp [hx] at h
  · simp [Py_BuildValue_tuple_s]

/-- No event but a call of `init` changes the global context. -/
theorem step_context (s : State) (e : Event) (he : e.isInit = false) :
    (step s e).2.context = s.context := by
  cases e with
  | init args opens => simp [Event.isInit] at he
  | close => simp only [step, pywit_close]; split <;> simp
  | text_query args res => simp only [step, pywit_text_query]; (repeat' split) <;> rfl
  | voice_query_start args =>
    simp only [step, pywit_voice_query_start]; (repeat' split) <;> rfl
  | voice_query_stop res => simp only [step, pywit_voice_query_stop]; (repeat' split) <;> rfl
  | voice_query_auto args res =>
    simp only [step, pywit_voice_query_auto]; (repeat' split) <;> rfl
  | text_query_async args =>
    simp only [step, pywit_text_query_async]; (repeat' split) <;> rfl
  | voice_query_auto_async args =>
    simp only [step, pywit_voice_query_auto_async]; (repeat' split) <;> rfl
  | voice_query_stop_async args =>
    simp only [step, pywit_voice_query_stop_async]; (repeat' split) <;> rfl
  | response res => simp only [step, my_wit_resp_callback]; split <;> simp
  | end_of_speech c => simp [step]

/-- Only `init` and `close` change the set of live native contexts. -/
theorem step_live (s : State) (e : Event) (he : e.isInit = false) (hc : e ≠ Event.close) :
    (step s e).2.native.live = s.native.live := by
  cases e with
  | init args opens => simp [Event.isInit] at he
  | close => exact absurd rfl hc
  | text_query args res =>
    simp only [step, pywit_text_query]; (repeat' split) <;> rfl
  | voice_query_start args =>
    simp only [step, pywit_voice_query_start]; (repeat' split) <;> rfl
  | voice_query_stop res =>
    simp only [step, pywit_voice_query_stop, wit_voice_query_stop]; (repeat' split) <;> rfl
  | voice_query_auto args res =>
    simp only [step, pywit_voice_query_auto]; (repeat' split) <;> rfl
  | text_query_async args =>
    simp only [step, pywit_text_query_async]
    (repeat' split) <;> rfl
  | voice_query_auto_async args =>
    simp only [step, pywit_voice_query_auto_async]
    (repeat' split) <;> rfl
  | voice_query_stop_async args =>
    simp only [step, pywit_voice_query_stop_async]
    (repeat' split) <;> rfl
  | response res => simp only [step, my_wit_resp_callback]; split <;> simp
  | end_of_speech c => simp [step, end_of_speech]

/-! ## Invariants along sequences -/

theorem LiveInv_start : LiveInv State.start := by
  simp [LiveInv, State.start]

theorem callback_isQuery (e : Event) (cb : PyVal) (he : e.callback = some cb) :
    e.isQuery = true := by
  cases e <;> simp [Event.callback] at he <;> rfl

/-- A sequence in which the process does not die runs event after event. -/
theorem run_cons (s : State) (e : Event) (es : List Event)
    (h : (step s e).1 ≠ some PyResult.crash) : run s (e :: es) = run (step s e).2 es := by
  simp [run, h]

/-- An event that registers nothing, or registers `cb` again, leaves `cb` in
the slot. -/
theorem step_slot (s : State) (e : Event) (cb : PyVal) (hs : s.saved_py_cb = some cb)
    (he : e.registers s = Option.none ∨ e.registers s = some cb) :
    (step s e).2.saved_py_cb = some cb := by
  cases hc : s.context with
  | none =>
    cases hcb : e.callback with
    | none => rw [(step_no_callback s e hcb).1]; exact hs
    | some o =>
      rw [step_query_uninitialized s e hc (callback_isQuery e o hcb)]
      exact hs
  | some c =>
    have hne : s.context ≠ Option.none := by simp [hc]
    simp only [Event.registers, hc, reduceCtorEq, if_false] at he
    rcases he with he | he
    · rw [(step_no_callback s e he).1]; exact hs
    · exact (step_callback s e cb hne he).2.1

/-- While `cb` stays the registered callback and the process lives, the
invocations made are one per response delivered, each of `cb` with the
conversion of that response. -/
theorem run_registered (mid : List Event) (s : State) (cb : PyVal)
    (hs : s.saved_py_cb = some cb) (hmid : onlyRegisters cb s mid = true)
    (hsafe : crashFree s mid = true) :
    (run s mid).saved_py_cb = some cb ∧
      (run s mid).calls
        = s.calls ++ (responses mid).map (fun r => (some cb, [Py_BuildValue_s r])) := by
  induction mid generalizing s with
  | nil => simp [run, responses, hs]
  | cons e es ih =>
    simp only [onlyRegisters, Bool.and_eq_true, Bool.or_eq_true, decide_eq_true_eq] at hmid
    simp only [crashFree, Bool.and_eq_true, decide_eq_true_eq] at hsafe
    have hslot := step_slot s e cb hs hmid.1
    obtain ⟨h1, h2⟩ := ih (step s e).2 hslot hmid.2 hsafe.2
    rw [run_cons s e es hsafe.1]
    refine ⟨h1, ?_⟩
    rw [h2]
    by_cases hr : ∃ res, e = Event.response res
    · obtain ⟨res, rfl⟩ := hr
      rw [(step_response s res hsafe.1).1, hs]
      simp [responses]
    · have hr2 : ∀ res, e ≠ Event.response res := fun res h => hr ⟨res, h⟩
      rw [step_calls s e hr2]
      cases e <;> first | rfl | exact absurd rfl (hr2 _)

theorem LiveInv_step (s : State) (e : Event) (h : LiveInv s)
    (hg : e.isInit = true → s.native.live = []) : LiveInv (step s e).2 := by
  by_cases hi : e.isInit = true
  · have hl := hg hi
    cases e with
    | init args opens =>
      simp only [step, pywit_init]
      split
      · exact h
      · cases opens <;> simp [LiveInv, wit_init, hl]
    | _ => simp [Event.isInit] at hi
  · have hi2 : e.isInit = false := by simpa using hi
    by_cases hc : e = Event.close
    · subst hc
      simp only [step, pywit_close]
      split
      · rename_i c hctx
        refine ⟨?_, ?_⟩
        · simp only [wit_close]
          exact le_trans (List.length_erase_le _ _) h.1
        · intro x hx
          simp only [wit_close] at hx
          exact h.2 x (List.mem_of_mem_erase hx)
      · exact h
    · refine ⟨?_, ?_⟩
      · rw [step_live s e hi2 hc]; exact h.1
      · intro x hx
        rw [step_live s e hi2 hc] at hx
        rw [step_context s e hi2]
        exact h.2 x hx

theorem LiveInv_run (evs : List Event) (s : State) (k : Nat) (h : LiveInv s)
    (hg : initOnlyWhenNoneLive s evs = true) : LiveInv (run s (evs.take k)) := by
  induction evs generalizing s k with
  | nil => simpa [run] using h
  | cons e es ih =>
    cases k with
    | zero => simpa [run] using h
    | succ k =>
      simp only [initOnlyWhenNoneLive, Bool.and_eq_true, Bool.or_eq_true, Bool.not_eq_true',
        List.isEmpty_iff] at hg
      have hstep : LiveInv (step s e).2 := by
        apply LiveInv_step s e h
        intro hi
        rcases hg.1 with h1 | h1
        · rw [hi] at h1; cases h1
        · exact h1
      simp only [List.take_succ_cons, run]
      split
      · exact hstep
      · exact ih _ _ hstep hg.2

/-- When the decrement of the response buffer does not reach zero,
`text_query` on a context that is not `NULL` returns the string of the native
library. -/
theorem text_query_returns (s : State) (c : Nat) (text access_token r : String)
    (hc : s.context = some c) (hr : Py_XDECREF_res (some r) = false) :
    (pywit_text_query s [PyVal.str text, PyVal.str access_token] (some r)).1
      = PyResult.ok (PyVal.str r) := by
  simp [pywit_text_query, hc, PyArg_ParseTuple_ss, wit_text_query, hr, Py_BuildValue_s]

/-! ## Properties of the binding -/

/-- C1 (defect of the code): `pywit_close` releases the native context but
leaves the global `context` pointing to it.  After `init()` and `close()` the
pointer still holds context 1, which is no longer live; a following
`text_query("hi", "TOKEN")` is accepted and hands context 1 to
`wit_text_query`, and a second `close()` hands it to `wit_close` again. -/
theorem close_leaves_context_dangling :
    (run State.start [Event.init [] true, Event.close]).context = some 1 ∧
    (run State.start [Event.init [] true, Event.close]).native.live = [] ∧
    (step (run State.start [Event.init [] true, Event.close])
        (Event.text_query [PyVal.str "hi", PyVal.str "TOKEN"] (some "r"))).1
      = some (PyResult.ok (PyVal.str "r")) ∧
    (run State.start [Event.init [] true, Event.close,
        Event.text_query [PyVal.str "hi", PyVal.str "TOKEN"] (some "r")]).native.log
      = [NativeCall.wit_init Option.none 4, NativeCall.wit_close 1,
         NativeCall.wit_text_query 1 "hi" "TOKEN"] ∧
    useAfterClose (run State.start [Event.init [] true, Event.close,
        Event.text_query [PyVal.str "hi", PyVal.str "TOKEN"] (some "r")]).native.log = true ∧
    (run State.start [Event.init [] true, Event.close, Event.close]).native.log
      = [NativeCall.wit_init Option.none 4, NativeCall.wit_close 1, NativeCall.wit_close 1] := by
  refine ⟨rfl, rfl, rfl, rfl, by decide, rfl⟩

/-- C2 (defect of the code): `pywit_text_query` applies `Py_XDECREF` to the
`char *` it got from `wit_text_query` (pywit.c:39).  After `init()`, when the
stubbed `wit_text_query` returns the one-byte string "\x01", the decrement of
the buffer's first word reaches zero and the process dies instead of
`text_query` returning that string; with the response of the spec's scenario
the same call returns the string, and `close()` then returns `None`. -/
theorem text_query_dies_on_response_buffer :
    ob_refcnt "\x01" = 1 ∧
    (pywit_text_query (pywit_init State.start [] true).2
        [PyVal.str "turn on the lights", PyVal.str "TOKEN"] (some "\x01")).1
      = PyResult.crash ∧
    (pywit_text_query (pywit_init State.start [] true).2
        [PyVal.str "turn on the lights", PyVal.str "TOKEN"]
        (some "\x7b\"intent\":\"light_on\"\x7d")).1
      = PyResult.ok (PyVal.str "\x7b\"intent\":\"light_on\"\x7d") ∧
    (pywit_close (pywit_text_query (pywit_init State.start [] true).2
        [PyVal.str "turn on the lights", PyVal.str "TOKEN"]
        (some "\x7b\"intent\":\"light_on\"\x7d")).2).1
      = PyResult.ok PyVal.none := by
  refine ⟨by decide, by decide, by decide, by decide⟩

/-- C3 (the claim fails): two asynchronous calls with different callbacks,
then the two responses.  Both responses are delivered to the second callback
(object 20); the first callback (object 10) is never invoked. -/
theorem second_async_call_takes_both_responses :
    (run State.start [Event.init [] true,
      Event.text_query_async [PyVal.str "a", PyVal.str "T", PyVal.obj 10 true],
      Event.text_query_async [PyVal.str "b", PyVal.str "T", PyVal.obj 20 true],
      Event.response (some "ra"), Event.response (some "rb")]).calls
    = [(some (PyVal.obj 20 true), [PyVal.str "ra"]),
       (some (PyVal.obj 20 true), [PyVal.str "rb"])] := by
  rfl

/-- C3 (amended): an asynchronous call with callable `cb` made on a context
that is not `NULL` is accepted (it returns `None`); along every sequence of
events after it in which every accepted asynchronous call registers `cb` and
the process does not die, `cb` stays the registered callback and the callback
invocations made are exactly one per response delivered by the native library,
in order, each an invocation of `cb` with the conversion of that response as
its single argument. -/
theorem responses_invoke_registered_callback (s : State) (e : Event) (cb : PyVal)
    (mid : List Event)
    (hctx : s.context ≠ Option.none) (he : e.callback = some cb)
    (hmid : onlyRegisters cb (step s e).2 mid = true)
    (hsafe : crashFree (step s e).2 mid = true) :
    (step s e).1 = some (PyResult.ok PyVal.none) ∧
    (run s (e :: mid)).saved_py_cb = some cb ∧
    (run s (e :: mid)).calls
      = s.calls ++ (responses mid).map (fun r => (some cb, [Py_BuildValue_s r])) := by
  obtain ⟨h1, h2, h3, _⟩ := step_callback s e cb hctx he
  have hne : (step s e).1 ≠ some PyResult.crash := by rw [h1]; simp
  obtain ⟨h4, h5⟩ := run_registered mid (step s e).2 cb h2 hmid hsafe
  rw [run_cons s e mid hne]
  exact ⟨h1, h4, by rw [h5, h3]⟩

/-- C3 (amended), at a concrete sequence: callback 10 is registered twice
with a blocking query in between, a call with callback 20 is rejected after a
failed `init`, and three responses are delivered. -/
theorem responses_invoke_registered_callback_witness :
    (step (pywit_init State.start [] true).2
        (Event.text_query_async [PyVal.str "a", PyVal.str "T", PyVal.obj 10 true])).1
      = some (PyResult.ok PyVal.none) ∧
    (run (pywit_init State.start [] true).2
        (Event.text_query_async [PyVal.str "a", PyVal.str "T", PyVal.obj 10 true] ::
          [Event.text_query [PyVal.str "x", PyVal.str "T"] (some "y"),
           Event.voice_query_stop_async [PyVal.obj 10 true],
           Event.response (some "ra"), Event.response Option.none,
           Event.init [] false,
           Event.text_query_async [PyVal.str "b", PyVal.str "T", PyVal.obj 20 true],
           Event.response (some "rb")])).saved_py_cb = some (PyVal.obj 10 true) ∧
    (run (pywit_init State.start [] true).2
        (Event.text_query_async [PyVal.str "a", PyVal.str "T", PyVal.obj 10 true] ::
          [Event.text_query [PyVal.str "x", PyVal.str "T"] (some "y"),
           Event.voice_query_stop_async [PyVal.obj 10 true],
           Event.response (some "ra"), Event.response Option.none,
           Event.init [] false,
           Event.text_query_async [PyVal.str "b", PyVal.str "T", PyVal.obj 20 true],
           Event.response (some "rb")])).calls
      = (pywit_init State.start [] true).2.calls
          ++ (responses
            [Event.text_query [PyVal.str "x", PyVal.str "T"] (some "y"),
             Event.voice_query_stop_async [PyVal.obj 10 true],
             Event.response (some "ra"), Event.response Option.none,
             Event.init [] false,
             Event.text_query_async [PyVal.str "b", PyVal.str "T", PyVal.obj 20 true],
             Event.response (some "rb")]).map
            (fun r => (some (PyVal.obj 10 true), [Py_BuildValue_s r])) :=
  responses_invoke_registered_callback (pywit_init State.start [] true).2
    (Event.text_query_async [PyVal.str "a", PyVal.str "T", PyVal.obj 10 true])
    (PyVal.obj 10 true)
    [Event.text_query [PyVal.str "x", PyVal.str "T"] (some "y"),
     Event.voice_query_stop_async [PyVal.obj 10 true],
     Event.response (some "ra"), Event.response Option.none,
     Event.init [] false,
     Event.text_query_async [PyVal.str "b", PyVal.str "T", PyVal.obj 20 true],
     Event.response (some "rb")]
    (by decide) (by rfl) (by decide) (by decide)

/-- C4 (the claim fails): before `init` has been called no recording session
is active, and `voice_query_stop()` raises the module error instead of
returning an empty response. -/
theorem voice_query_stop_before_init_raises :
    State.start.native.recording = [] ∧
    (pywit_voice_query_stop State.start Option.none).1
      = PyResult.raise (PyErr.WitError "Wit context uninitialized (did you call wit.init()?)") := by
  exact ⟨rfl, rfl⟩

/-- C4 (amended): in every state in which no recording session is active on
the current context, `voice_query_stop()` returns `None` (the empty response)
without an error when the context is not `NULL`, and raises the module error
"Wit context uninitialized (did you call wit.init()?)" when it is `NULL`; in
both cases no recording session appears. -/
theorem voice_query_stop_without_session (s : State) (res : Option String)
    (hrec : ∀ c, s.context = some c → c ∉ s.native.recording) :
    (pywit_voice_query_stop s res).1
      = (if s.context.isSome then PyResult.ok PyVal.none
         else PyResult.raise
           (PyErr.WitError "Wit context uninitialized (did you call wit.init()?)")) ∧
    (pywit_voice_query_stop s res).2.native.recording = s.native.recording := by
  cases hc : s.context with
  | none => simp [pywit_voice_query_stop, hc, uninitialized]
  | some c =>
    have h := hrec c hc
    simp [pywit_voice_query_stop, hc, wit_voice_query_stop, h, Py_BuildValue_s, Py_XDECREF_res]

/-- C4 (amended), at a concrete state: after `init()` there is a context and
no session, and `voice_query_stop()` returns `None` whatever the transport
would answer. -/
theorem voice_query_stop_without_session_witness :
    (pywit_voice_query_stop (pywit_init State.start [] true).2 (some "r")).1
      = (if (pywit_init State.start [] true).2.context.isSome then PyResult.ok PyVal.none
         else PyResult.raise
           (PyErr.WitError "Wit context uninitialized (did you call wit.init()?)")) ∧
    (pywit_voice_query_stop (pywit_init State.start [] true).2 (some "r")).2.native.recording
      = (pywit_init State.start [] true).2.native.recording :=
  voice_query_stop_without_session (pywit_init State.start [] true).2 (some "r")
    (by decide)

/-- C5 (the claim fails): when the native `wit_init` cannot open the device
and yields no context, `init()` returns `None` like a successful call. -/
theorem init_failure_returns_none :
    (wit_init State.start.native Option.none 4 false).1 = Option.none ∧
    (pywit_init State.start [] false).1 = PyResult.ok PyVal.none := by
  exact ⟨rfl, rfl⟩

/-- C5 (amended): for every device argument that `PyArg_ParseTuple` accepts,
when the native `wit_init` yields no context, `init` has called
`wit_init(device_opt, 4)`, returns `None` without an error and leaves the
global context `NULL`; each of the seven query methods called next raises the
module error "Wit context uninitialized (did you call wit.init()?)" and
changes nothing. -/
theorem init_failure_surfaces_at_next_query (s : State) (args : List PyVal)
    (device_opt : Option String) (e : Event)
    (hargs : PyArg_ParseTuple_opt_s args = some device_opt) (he : e.isQuery = true) :
    (pywit_init s args false).1 = PyResult.ok PyVal.none ∧
    (pywit_init s args false).2.context = Option.none ∧
    (pywit_init s args false).2.native.log
      = s.native.log ++ [NativeCall.wit_init device_opt 4] ∧
    step (pywit_init s args false).2 e
      = (some (PyResult.raise
            (PyErr.WitError "Wit context uninitialized (did you call wit.init()?)")),
          (pywit_init s args false).2) := by
  have h2 : (pywit_init s args false).2.context = Option.none := by
    simp [pywit_init, hargs, wit_init]
  refine ⟨?_, h2, ?_, ?_⟩
  · simp [pywit_init, hargs]
  · simp [pywit_init, hargs, wit_init]
  · exact step_query_uninitialized _ e h2 he

/-- C5 (amended), at a concrete call: `init("hw:1")` on a device that does not
open, followed by `text_query`. -/
theorem init_failure_surfaces_at_next_query_witness :
    (pywit_init State.start [PyVal.str "hw:1"] false).1 = PyResult.ok PyVal.none ∧
    (pywit_init State.start [PyVal.str "hw:1"] false).2.context = Option.none ∧
    (pywit_init State.start [PyVal.str "hw:1"] false).2.native.log
      = State.start.native.log ++ [NativeCall.wit_init (some "hw:1") 4] ∧
    step (pywit_init State.start [PyVal.str "hw:1"] false).2
        (Event.text_query [PyVal.str "hi", PyVal.str "TOKEN"] (some "r"))
      = (some (PyResult.raise
            (PyErr.WitError "Wit context uninitialized (did you call wit.init()?)")),
          (pywit_init State.start [PyVal.str "hw:1"] false).2) :=
  init_failure_surfaces_at_next_query State.start [PyVal.str "hw:1"] (some "hw:1")
    (Event.text_query [PyVal.str "hi", PyVal.str "TOKEN"] (some "r")) rfl rfl

/-- C6: with a context that is not `NULL` and an argument tuple of the right
shape whose callback is not callable, each of `text_query_async`,
`voice_query_auto_async` and `voice_query_stop_async` raises the module error
"Parameter must be callable." and returns the state it was called in: no call
reaches the native library, the callback slot and every reference count are
as before. -/
theorem non_callable_callback_rejected (s : State) (c : Nat) (text access_token : String)
    (cb : PyVal) (hc : s.context = some c) (hcb : PyCallable_Check cb = false) :
    pywit_text_query_async s [PyVal.str text, PyVal.str access_token, cb]
      = (PyResult.raise (PyErr.WitError "Parameter must be callable."), s) ∧
    pywit_voice_query_auto_async s [PyVal.str access_token, cb]
      = (PyResult.raise (PyErr.WitError "Parameter must be callable."), s) ∧
    pywit_voice_query_stop_async s [cb]
      = (PyResult.raise (PyErr.WitError "Parameter must be callable."), s) := by
  simp [pywit_text_query_async, pywit_voice_query_auto_async, pywit_voice_query_stop_async, hc,
    hcb, PyArg_ParseTuple_ssO, PyArg_ParseTuple_sO, PyArg_ParseTuple_O, not_callable]

/-- C6, at a concrete call: after `init()`, with a callback already
registered, the integer 3 is passed as callback. -/
theorem non_callable_callback_rejected_witness :
    pywit_text_query_async
        (run State.start [Event.init [] true, Event.voice_query_stop_async [PyVal.obj 10 true]])
        [PyVal.str "hi", PyVal.str "TOKEN", PyVal.int 3]
      = (PyResult.raise (PyErr.WitError "Parameter must be callable."),
          run State.start [Event.init [] true, Event.voice_query_stop_async [PyVal.obj 10 true]]) ∧
    pywit_voice_query_auto_async
        (run State.start [Event.init [] true, Event.voice_query_stop_async [PyVal.obj 10 true]])
        [PyVal.str "TOKEN", PyVal.int 3]
      = (PyResult.raise (PyErr.WitError "Parameter must be callable."),
          run State.start [Event.init [] true, Event.voice_query_stop_async [PyVal.obj 10 true]]) ∧
    pywit_voice_query_stop_async
        (run State.start [Event.init [] true, Event.voice_query_stop_async [PyVal.obj 10 true]])
        [PyVal.int 3]
      = (PyResult.raise (PyErr.WitError "Parameter must be callable."),
          run State.start [Event.init [] true, Event.voice_query_stop_async [PyVal.obj 10 true]]) :=
  non_callable_callback_rejected
    (run State.start [Event.init [] true, Event.voice_query_stop_async [PyVal.obj 10 true]])
    1 "hi" "TOKEN" (PyVal.int 3) rfl rfl

/-- C8 (defect of the code): both paths apply `Py_XDECREF` to the `char *`
response (pywit.c:39 and pywit.c:94).  After `init()`, with the native
response "\x01", `text_query` does not return: the process dies; and
`text_query_async` with a callable is accepted, but when the native library
delivers the same response the process dies in `my_wit_resp_callback` before
the callback is called, so no invocation is made.  There is no returned value
and no callback argument to be equal. -/
theorem text_query_sync_async_die_on_response_buffer :
    (pywit_text_query (pywit_init State.start [] true).2
        [PyVal.str "hi", PyVal.str "TOKEN"] (some "\x01")).1 = PyResult.crash ∧
    (pywit_text_query_async (pywit_init State.start [] true).2
        [PyVal.str "hi", PyVal.str "TOKEN", PyVal.obj 10 true]).1 = PyResult.ok PyVal.none ∧
    (my_wit_resp_callback
        (pywit_text_query_async (pywit_init State.start [] true).2
          [PyVal.str "hi", PyVal.str "TOKEN", PyVal.obj 10 true]).2 (some "\x01")).1
      = some PyResult.crash ∧
    (my_wit_resp_callback
        (pywit_text_query_async (pywit_init State.start [] true).2
          [PyVal.str "hi", PyVal.str "TOKEN", PyVal.obj 10 true]).2 (some "\x01")).2.calls
      = [] := by
  refine ⟨by decide, by decide, by decide, by decide⟩

/-- C9 (the claim fails): two calls of `init()` in a row leave two native
contexts live, 1 and 2; the global `context` points to 2 and nothing in the
binding refers to 1 any more. -/
theorem second_init_leaves_two_live_contexts :
    (run State.start [Event.init [] true, Event.init [] true]).native.live = [2, 1] ∧
    (run State.start [Event.init [] true, Event.init [] true]).context = some 2 ∧
    (run State.start [Event.init [] true, Event.init [] true]).native.log
      = [NativeCall.wit_init Option.none 4, NativeCall.wit_init Option.none 4] := by
  exact ⟨rfl, rfl, rfl⟩

/-- C9 (amended): along every sequence of events from the loaded module in
which `init` is only called while no native context is live, at every moment
(after the first `k` events, for every `k`) at most one native context is
live, and a live context is the one the global `context` points to. -/
theorem one_live_context_when_init_not_repeated (evs : List Event) (k : Nat)
    (hg : initOnlyWhenNoneLive State.start evs = true) :
    (run State.start (evs.take k)).native.live.length ≤ 1 ∧
    ∀ x ∈ (run State.start (evs.take k)).native.live,
      (run State.start (evs.take k)).context = some x :=
  LiveInv_run evs State.start k LiveInv_start hg

/-- C9 (amended), at a concrete sequence: `init`, a query, `close`, `close`
again, `init`, a query; looked at after five events. -/
theorem one_live_context_when_init_not_repeated_witness :
    (run State.start (([Event.init [] true,
        Event.text_query [PyVal.str "hi", PyVal.str "TOKEN"] (some "r"), Event.close,
        Event.close, Event.init [PyVal.str "hw:1"] true,
        Event.voice_query_start [PyVal.str "TOKEN"]] : List Event).take 5)).native.live.length
      ≤ 1 ∧
    ∀ x ∈ (run State.start (([Event.init [] true,
        Event.text_query [PyVal.str "hi", PyVal.str "TOKEN"] (some "r"), Event.close,
        Event.close, Event.init [PyVal.str "hw:1"] true,
        Event.voice_query_start [PyVal.str "TOKEN"]] : List Event).take 5)).native.live,
      (run State.start (([Event.init [] true,
        Event.text_query [PyVal.str "hi", PyVal.str "TOKEN"] (some "r"), Event.close,
        Event.close, Event.init [PyVal.str "hw:1"] true,
        Event.voice_query_start [PyVal.str "TOKEN"]] : List Event).take 5)).context = some x :=
  one_live_context_when_init_not_repeated [Event.init [] true,
    Event.text_query [PyVal.str "hi", PyVal.str "TOKEN"] (some "r"), Event.close,
    Event.close, Event.init [PyVal.str "hw:1"] true,
    Event.voice_query_start [PyVal.str "TOKEN"]] 5 (by decide)

/-- C10 (the claim fails): `voice_query_stop` is registered `METH_NOARGS`;
called with an argument while the context is `NULL` it raises `TypeError`, not
the module error: the C function with the `NULL` test is not entered. -/
theorem voice_query_stop_with_argument_raises_type_error :
    State.start.context = Option.none ∧
    METH_NOARGS (fun t => pywit_voice_query_stop t Option.none) State.start [PyVal.int 1]
      = (PyResult.raise PyErr.TypeError, State.start) := by
  exact ⟨rfl, rfl⟩

/-- C10 (amended): when the global context is `NULL`, each of the six query
methods that take arguments, on every argument tuple, and `voice_query_stop`
called without argument raise the module error
"Wit context uninitialized (did you call wit.init()?)" and return the state
they were called in (no native call, callback slot untouched);
`voice_query_stop` called with any argument raises `TypeError`, the state
again untouched; `close` called without argument returns `None` and also
leaves the state as it was. -/
theorem null_context_rejected (s : State) (args : List PyVal) (res : Option String)
    (h : s.context = Option.none) :
    pywit_text_query s args res
      = (PyResult.raise
          (PyErr.WitError "Wit context uninitialized (did you call wit.init()?)"), s) ∧
    pywit_voice_query_start s args
      = (PyResult.raise
          (PyErr.WitError "Wit context uninitialized (did you call wit.init()?)"), s) ∧
    pywit_voice_query_auto s args res
      = (PyResult.raise
          (PyErr.WitError "Wit context uninitialized (did you call wit.init()?)"), s) ∧
    pywit_text_query_async s args
      = (PyResult.raise
          (PyErr.WitError "Wit context uninitialized (did you call wit.init()?)"), s) ∧
    pywit_voice_query_auto_async s args
      = (PyResult.raise
          (PyErr.WitError "Wit context uninitialized (did you call wit.init()?)"), s) ∧
    pywit_voice_query_stop_async s args
      = (PyResult.raise
          (PyErr.WitError "Wit context uninitialized (did you call wit.init()?)"), s) ∧
    METH_NOARGS (fun t => pywit_voice_query_stop t res) s args
      = (if args.isEmpty then
          (PyResult.raise
            (PyErr.WitError "Wit context uninitialized (did you call wit.init()?)"), s)
         else (PyResult.raise PyErr.TypeError, s)) ∧
    METH_NOARGS pywit_close s [] = (PyResult.ok PyVal.none, s) := by
  refine ⟨?_, ?_, ?_, ?_, ?_, ?_, ?_, ?_⟩
  · simp [pywit_text_query, h, uninitialized]
  · simp [pywit_voice_query_start, h, uninitialized]
  · simp [pywit_voice_query_auto, h, uninitialized]
  · simp [pywit_text_query_async, h, uninitialized]
  · simp [pywit_voice_query_auto_async, h, uninitialized]
  · simp [pywit_voice_query_stop_async, h, uninitialized]
  · cases args <;> simp [METH_NOARGS, pywit_voice_query_stop, h, uninitialized]
  · simp [METH_NOARGS, pywit_close, h]

/-- C10 (amended), at a concrete call: the module as loaded, with a
well-formed asynchronous argument tuple. -/
theorem null_context_rejected_witness :
    pywit_text_query_async State.start [PyVal.str "hi", PyVal.str "TOKEN", PyVal.obj 10 true]
      = (PyResult.raise
          (PyErr.WitError "Wit context uninitialized (did you call wit.init()?)"), State.start) ∧
    METH_NOARGS (fun t => pywit_voice_query_stop t Option.none) State.start
        [PyVal.str "hi", PyVal.str "TOKEN", PyVal.obj 10 true]
      = (PyResult.raise PyErr.TypeError, State.start) ∧
    METH_NOARGS pywit_close State.start [] = (PyResult.ok PyVal.none, State.start) :=
  ⟨(null_context_rejected State.start
      [PyVal.str "hi", PyVal.str "TOKEN", PyVal.obj 10 true] Option.none rfl).2.2.2.1,
   (null_context_rejected State.start
      [PyVal.str "hi", PyVal.str "TOKEN", PyVal.obj 10 true] Option.none rfl).2.2.2.2.2.2.1,
   (null_context_rejected State.start
      [PyVal.str "hi", PyVal.str "TOKEN", PyVal.obj 10 true] Option.none rfl).2.2.2.2.2.2.2⟩

end Pywit
